import Mathlib

/-!
Verification of `wire-notifications.py`, a one-shot source-patching script.

File contents are modelled as `List Char`; each text-editing helper of the
script (`insert_import`, `insert_after`, `insert_before`, `replace_text`)
is translated into a pure function, with the outcome of one call captured
by `PatchResult`.  Python's `-1` sentinels of `find`/`rfind` become
`Option Nat`, and the `ValueError` that `content.index` can raise becomes
the `valueError` outcome.
-/

namespace WireNotifications

/-- Whitespace characters stripped by Python `str.strip()` (ASCII range). -/
def isPySpace (c : Char) : Bool :=
  c = ' ' || c = '\t' || c = '\n' || c = '\r' || c = '\x0b' || c = '\x0c'

/-- Python `s.strip()`: drop whitespace from both ends. -/
def pyStrip (s : List Char) : List Char :=
  ((s.dropWhile isPySpace).reverse.dropWhile isPySpace).reverse

/-- Python `content.find(pat)`, as an `Option`: index of the first
occurrence of `pat` in `s`, `none` when absent (Python returns `-1`). -/
def findSub : List Char → List Char → Option Nat
  | [], pat => if pat.isPrefixOf [] then some 0 else none
  | a :: s, pat =>
    if pat.isPrefixOf (a :: s) then some 0
    else (findSub s pat).map (· + 1)

/-- Python `pat in s`. -/
def pyIn (pat s : List Char) : Bool :=
  (findSub s pat).isSome

/-- Python `content.index(c, i)` as an `Option`: least `j ≥ i` with
`s[j] = c`; `none` stands for the `ValueError` raise. -/
def indexOfFrom (s : List Char) (c : Char) (i : Nat) : Option Nat :=
  (List.range s.length).find? (fun j => decide (i ≤ j ∧ s.getD j ' ' = c))

/-- Python `content.rfind(c, 0, idx)` as an `Option`: greatest `j < idx`
with `s[j] = c`, `none` when there is none (Python returns `-1`). -/
def rfindBefore (s : List Char) (c : Char) (idx : Nat) : Option Nat :=
  ((List.range (min idx s.length)).filter
    (fun j => decide (s.getD j ' ' = c))).getLast?

/-- The two-character comment sigil of the target language. -/
def slashSlash : List Char := ['/', '/']

/-- The `check_lines` computation shared by the patch helpers: strip the
block, split into lines, strip each line, and keep the non-blank lines
that do not start with `//`. -/
def checkLines (block : List Char) : List (List Char) :=
  (((pyStrip block).splitOn '\n').map pyStrip).filter
    (fun l => !l.isEmpty && !(slashSlash.isPrefixOf l))

/-- The already-applied test `check_lines and check_lines[0] in content`. -/
def alreadyApplied (block content : List Char) : Bool :=
  match checkLines block with
  | [] => false
  | l :: _ => pyIn l content

/-- Outcome of one helper call.  `patched c` means content `c` was written
back; `alreadyApplied` and `notFound` leave the file untouched (printing a
skip note resp. a warning); `valueError` models the uncaught `ValueError`
raised by `content.index` inside `insert_after`. -/
inductive PatchResult where
  | alreadyApplied : PatchResult
  | notFound : PatchResult
  | patched : List Char → PatchResult
  | valueError : PatchResult
deriving DecidableEq

/-- `insert_after(filepath, marker, code_block)` acting on content `c`. -/
def insert_after (c marker block : List Char) : PatchResult :=
  if alreadyApplied block c then .alreadyApplied
  else
    match findSub c marker with
    | none => .notFound
    | some idx =>
      match indexOfFrom c '\n' idx with
      | none => .valueError
      | some eol => .patched (c.take (eol + 1) ++ block ++ c.drop (eol + 1))

/-- `insert_before(filepath, marker, code_block)` acting on content `c`. -/
def insert_before (c marker block : List Char) : PatchResult :=
  if alreadyApplied block c then .alreadyApplied
  else
    match findSub c marker with
    | none => .notFound
    | some idx =>
      let sol := match rfindBefore c '\n' idx with
        | none => 0
        | some j => j + 1
      .patched (c.take sol ++ block ++ c.drop sol)

/-- `replace_text(filepath, old_text, new_text)` acting on content `c`:
`content.replace(old, new, 1)` splices `new` over the first occurrence of
`old`; when `old` is absent the helper prints a skip note when the first
check line of `new` is present, otherwise a not-found warning. -/
def replace_text (c old new : List Char) : PatchResult :=
  match findSub c old with
  | some i => .patched (c.take i ++ new ++ c.drop (i + old.length))
  | none =>
    if alreadyApplied new c then .alreadyApplied else .notFound

/-- The eight characters that begin an import line. -/
def importSpace : List Char := "import ".data

/-- Python's `last_import_idx` loop: index of the last line that starts
with `"import "` (`none` for `-1`). -/
def lastImportIdx : List (List Char) → Option Nat
  | [] => none
  | l :: ls =>
    match lastImportIdx ls with
    | some i => some (i + 1)
    | none => if importSpace.isPrefixOf l then some 0 else none

/-- `insert_import(filepath, import_line)` acting on content `c`: returns
the final file content (unchanged when the line is already present). -/
def insert_import (c line : List Char) : List Char :=
  if pyIn line c then c
  else
    let lines := c.splitOn '\n'
    let idx := match lastImportIdx lines with
      | some i => i + 1
      | none => 0
    List.intercalate ['\n'] (lines.insertIdx idx line)

/-- File content after a helper call: only `patched` writes. -/
def runPatch (r : PatchResult) (c : List Char) : List Char :=
  match r with
  | .patched c2 => c2
  | _ => c

/-- Import line of step 1 (app issue submission). -/
def imp1 : List Char := ("import \x7b notifyNewIssue \x7d from \x27@/lib/node-red\x27;").data

/-- Marker of step 1. -/
def mark1 : List Char := ("return NextResponse.json(\x7b\n      success: true,\n      message: \x27Issue submitted successfully\x27").data

/-- Code block of step 1. -/
def block1 : List Char := ("\n    // Notify Node-RED → WhatsApp (fire-and-forget)\n    notifyNewIssue(\x7b\n      id: issue.id,\n      title,\n      description,\n      area,\n      authorEmail: user.email,\n      source: \x27app\x27,\n    \x7d);\n\n").data

/-- Import line of step 2 (website issue submission). -/
def imp2 : List Char := ("import \x7b notifyNewIssue \x7d from \x27@/lib/node-red\x27;").data

/-- Marker of step 2. -/
def mark2 : List Char := ("return NextResponse.json(\x7b success: true, id: issue.id \x7d);").data

/-- Code block of step 2. -/
def block2 : List Char := ("\n  // Notify Node-RED → WhatsApp (fire-and-forget)\n  notifyNewIssue(\x7b\n    id: issue.id,\n    title,\n    description,\n    area,\n    authorEmail: session.user?.email || \x27\x27,\n    source: \x27website\x27,\n  \x7d);\n\n").data

/-- Import line of step 3 (idea submission). -/
def imp3 : List Char := ("import \x7b notifyNewIdea \x7d from \x27@/lib/node-red\x27;").data

/-- Marker of step 3. -/
def mark3 : List Char := ("// Auto-vote for the author").data

/-- Code block of step 3. -/
def block3 : List Char := ("\n    // Notify Node-RED → WhatsApp (fire-and-forget)\n    notifyNewIdea(\x7b\n      id: idea.id,\n      title: idea.title,\n      description,\n      category: \x27feature\x27,\n      authorEmail: session.user?.email || \x27\x27,\n    \x7d);\n\n").data

/-- Import line of step 4 (idea vote threshold). -/
def imp4 : List Char := ("import \x7b notifyIdeaPopular \x7d from \x27@/lib/node-red\x27;").data

/-- Old text of step 4. -/
def old4 : List Char := ("return NextResponse.json(\x7b \n        voted: true, \n        votes: voteCount \n      \x7d);").data

/-- Replacement text of step 4; note that it ends with the old text. -/
def new4 : List Char := ("// Check vote threshold → WhatsApp notification\n      const VOTE_THRESHOLD = 5;\n      if (voteCount >= VOTE_THRESHOLD && (voteCount - 1) < VOTE_THRESHOLD) \x7b\n        notifyIdeaPopular(\x7b\n          id: ideaId,\n          title: idea.title,\n          voteCount,\n          threshold: VOTE_THRESHOLD,\n        \x7d);\n      \x7d\n\n      return NextResponse.json(\x7b \n        voted: true, \n        votes: voteCount \n      \x7d);").data

/-- Import line of step 5 (stripe webhook). -/
def imp5 : List Char := ("import \x7b notifyPayment \x7d from \x27@/lib/node-red\x27;").data

/-- Old text of the first replacement of step 5. -/
def old5a : List Char := ("      cancelAtPeriodEnd: subscription.cancel_at_period_end,\n    \x7d,\n  \x7d);\n\x7d").data

/-- Replacement text of the first replacement of step 5. -/
def new5a : List Char := ("      cancelAtPeriodEnd: subscription.cancel_at_period_end,\n    \x7d,\n  \x7d);\n\n  // Notify Node-RED → WhatsApp\n  notifyPayment(\x7b\n    event: \x27subscription-created\x27,\n    email: session.customer_email || \x27\x27,\n    plan: await getPlanFromPriceId(subscription.items.data[0].price.id),\n    amount: subscription.items.data[0].price.unit_amount || 0,\n  \x7d);\n\x7d").data

/-- Old text of the second replacement of step 5. -/
def old5b : List Char := ("// TODO: Send email notification about failed payment").data

/-- Replacement text of the second replacement of step 5. -/
def new5b : List Char := ("// Notify Node-RED → WhatsApp\n  notifyPayment(\x7b\n    event: \x27payment-failed\x27,\n    email: (invoice as any).customer_email || \x27\x27,\n    plan: team.plan || \x27unknown\x27,\n    amount: invoice.amount_due,\n    details: \x27Invoice payment failed\x27,\n  \x7d);").data

/-- Import line of step 6 (release upload). -/
def imp6 : List Char := ("import \x7b notifyRelease \x7d from \x27@/lib/node-red\x27;").data

/-- Marker of step 6. -/
def mark6 : List Char := ("return NextResponse.json(\x7b\n      success: true,\n      message: \x27Release uploaded successfully.\x27").data

/-- Code block of step 6. -/
def block6 : List Char := ("\n    // Notify Node-RED → WhatsApp\n    notifyRelease(\x7b\n      version: resolvedVersion,\n      platform,\n      releaseNotes: releaseNotes || undefined,\n    \x7d);\n\n").data

/-- Import line of step 7 (security alerts). -/
def imp7 : List Char := ("import \x7b notifySecurityAlert \x7d from \x27@/lib/node-red\x27;").data

/-- Marker of step 7. -/
def mark7 : List Char := (".catch(err => console.error(\x27[Intrusion] Email send failed:\x27, err));").data

/-- Code block of step 7. -/
def block7 : List Char := ("\n      // Also notify via WhatsApp (fire-and-forget)\n      notifySecurityAlert(\x7b\n        severity,\n        eventType: escalatedType,\n        sourceIp: event.ip,\n        details: \x60$\x7bcount\x7d events in $\x7bWINDOW_MS / 60000\x7dmin – path: $\x7bevent.path || \x27-\x27\x7d\x60,\n      \x7d).catch(() => \x7b\x7d);\n").data

/-- Modelled from the spec: the target file `src/app/api/app/issues/submit/route.ts` is not part of
this repository snapshot; per the spec each literal marker occurs exactly
once at the intended insertion point, in an otherwise ordinary source
file with one existing import line. -/
def file1Model : List Char := ("import \x7b NextResponse \x7d from \x27next/server\x27;\n\nexport async function POST(req) \x7b\n    const issue = await createIssue();\n    return NextResponse.json(\x7b\n      success: true,\n      message: \x27Issue submitted successfully\x27\n    \x7d);\n\x7d\n").data

/-- Modelled from the spec: the target file `src/app/api/issues/route.ts` is not part of
this repository snapshot; per the spec each literal marker occurs exactly
once at the intended insertion point, in an otherwise ordinary source
file with one existing import line. -/
def file2Model : List Char := ("import \x7b NextResponse \x7d from \x27next/server\x27;\n\nexport async function POST(req) \x7b\n  const issue = await makeIssue();\n  return NextResponse.json(\x7b success: true, id: issue.id \x7d);\n\x7d\n").data

/-- Modelled from the spec: the target file `src/app/api/ideas/route.ts` is not part of
this repository snapshot; per the spec each literal marker occurs exactly
once at the intended insertion point, in an otherwise ordinary source
file with one existing import line. -/
def file3Model : List Char := ("import \x7b NextResponse \x7d from \x27next/server\x27;\n\nexport async function POST(req) \x7b\n    const idea = await makeIdea();\n    // Auto-vote for the author\n    await vote(idea.id);\n    return NextResponse.json(\x7b ok: true \x7d);\n\x7d\n").data

/-- Modelled from the spec: the target file `src/app/api/ideas/[id]/vote/route.ts` is not part of
this repository snapshot; per the spec each literal marker occurs exactly
once at the intended insertion point, in an otherwise ordinary source
file with one existing import line. -/
def file4Model : List Char := ("import \x7b NextResponse \x7d from \x27next/server\x27;\n\nexport async function POST(req) \x7b\n    if (voted) \x7b\n      return NextResponse.json(\x7b \n        voted: true, \n        votes: voteCount \n      \x7d);\n    \x7d\n\x7d\n").data

/-- Modelled from the spec: the target file `src/app/api/stripe/webhook/route.ts` is not part of
this repository snapshot; per the spec each literal marker occurs exactly
once at the intended insertion point, in an otherwise ordinary source
file with one existing import line. -/
def file5Model : List Char := ("import Stripe from \x27stripe\x27;\n\nasync function handleSubscription(subscription) \x7b\n  await db.update(\x7b\n    data: \x7b\n      cancelAtPeriodEnd: subscription.cancel_at_period_end,\n    \x7d,\n  \x7d);\n\x7d\n\nasync function handleFailure(invoice) \x7b\n  // TODO: Send email notification about failed payment\n\x7d\n").data

/-- Modelled from the spec: the target file `src/app/api/admin/downloads/upload/route.ts` is not part of
this repository snapshot; per the spec each literal marker occurs exactly
once at the intended insertion point, in an otherwise ordinary source
file with one existing import line. -/
def file6Model : List Char := ("import \x7b NextResponse \x7d from \x27next/server\x27;\n\nexport async function POST(req) \x7b\n    const resolvedVersion = await save();\n    return NextResponse.json(\x7b\n      success: true,\n      message: \x27Release uploaded successfully.\x27\n    \x7d);\n\x7d\n").data

/-- Modelled from the spec: the target file `src/lib/intrusion.ts` is not part of
this repository snapshot; per the spec each literal marker occurs exactly
once at the intended insertion point, in an otherwise ordinary source
file with one existing import line. -/
def file7Model : List Char := ("import \x7b sendMail \x7d from \x27./mail\x27;\n\nexport function alertAdmins(event) \x7b\n  sendMail(event)\n    .catch(err => console.error(\x27[Intrusion] Email send failed:\x27, err));\n  return;\n\x7d\n").data

/-- Number of positions at which `p` occurs in `c` (overlaps counted):
one candidate position per suffix, including the final empty suffix. -/
def countOcc (p : List Char) : List Char → Nat
  | [] => if p.isPrefixOf [] then 1 else 0
  | a :: t => (if p.isPrefixOf (a :: t) then 1 else 0) + countOcc p t

/-- Content effect of step 1 of `main` on `src/app/api/app/issues/submit/route.ts`. -/
def patchFile1 (c : List Char) : List Char :=
  let c1 := insert_import c imp1
  runPatch (insert_before c1 mark1 block1) c1

/-- Content effect of step 2 of `main` on `src/app/api/issues/route.ts`. -/
def patchFile2 (c : List Char) : List Char :=
  let c1 := insert_import c imp2
  runPatch (insert_before c1 mark2 block2) c1

/-- Content effect of step 3 of `main` on `src/app/api/ideas/route.ts`
(on a `valueError` the exception fires before the write, so the content
is unchanged). -/
def patchFile3 (c : List Char) : List Char :=
  let c1 := insert_import c imp3
  runPatch (insert_after c1 mark3 block3) c1

/-- Content effect of step 4 of `main` on `src/app/api/ideas/[id]/vote/route.ts`. -/
def patchFile4 (c : List Char) : List Char :=
  let c1 := insert_import c imp4
  runPatch (replace_text c1 old4 new4) c1

/-- Content effect of step 5 of `main` on `src/app/api/stripe/webhook/route.ts`. -/
def patchFile5 (c : List Char) : List Char :=
  let c1 := insert_import c imp5
  let c2 := runPatch (replace_text c1 old5a new5a) c1
  runPatch (replace_text c2 old5b new5b) c2

/-- Content effect of step 6 of `main` on `src/app/api/admin/downloads/upload/route.ts`. -/
def patchFile6 (c : List Char) : List Char :=
  let c1 := insert_import c imp6
  runPatch (insert_before c1 mark6 block6) c1

/-- Content effect of step 7 of `main` on `src/lib/intrusion.ts`. -/
def patchFile7 (c : List Char) : List Char :=
  let c1 := insert_import c imp7
  runPatch (insert_after c1 mark7 block7) c1

/-- Outcome of the three `os.path` checks of `check_prereqs`. -/
structure Prereqs where
  packageJson : Bool
  apiDir : Bool
  nodeRedTs : Bool

/-- `check_prereqs` passes exactly when all three checks succeed. -/
def check_prereqs (p : Prereqs) : Bool :=
  (p.packageJson && p.apiDir) && p.nodeRedTs

/-- The contents of the seven target files. -/
structure Files where
  issuesSubmit : List Char
  issues : List Char
  ideas : List Char
  ideasVote : List Char
  stripeWebhook : List Char
  downloadsUpload : List Char
  intrusion : List Char

/-- Whether a helper call raises an uncaught exception. -/
def raises (r : PatchResult) : Bool :=
  match r with
  | .valueError => true
  | _ => false

/-- The seven patch steps of `main` in order; an uncaught `ValueError`
(possible only in the two `insert_after` steps) aborts the run. -/
def mainFiles (fs : Files) : Except Unit Files :=
  let f1 := patchFile1 fs.issuesSubmit
  let f2 := patchFile2 fs.issues
  let c3 := insert_import fs.ideas imp3
  let r3 := insert_after c3 mark3 block3
  if raises r3 then Except.error ()
  else
    let f3 := runPatch r3 c3
    let f4 := patchFile4 fs.ideasVote
    let f5 := patchFile5 fs.stripeWebhook
    let f6 := patchFile6 fs.downloadsUpload
    let c7 := insert_import fs.intrusion imp7
    let r7 := insert_after c7 mark7 block7
    if raises r7 then Except.error ()
    else Except.ok ⟨f1, f2, f3, f4, f5, f6, runPatch r7 c7⟩

/-- Exit code of the script: `sys.exit(1)` when a prerequisite check
fails, exit code 1 when an uncaught exception terminates the interpreter,
0 on a completed run. -/
def mainExit (p : Prereqs) (fs : Files) : Nat :=
  if check_prereqs p then
    match mainFiles fs with
    | Except.ok _ => 0
    | Except.error _ => 1
  else 1

/-- All seven target files empty. -/
def emptyFiles : Files := ⟨[], [], [], [], [], [], []⟩

/-- Target files modelled from the spec, one content per file. -/
def modelFiles : Files :=
  ⟨file1Model, file2Model, file3Model, file4Model, file5Model, file6Model,
    file7Model⟩

/-- Files identical to `emptyFiles` except that the ideas file consists of
the step-3 marker alone, with no trailing newline. -/
def badIdeasFiles : Files :=
  ⟨[], [], ("// Auto-vote for the author").data, [], [], [], []⟩

/-- The content written for target file 1 by the patch routine, as a literal. -/
def final1 : List Char := ("import \x7b NextResponse \x7d from \x27next/server\x27;\nimport \x7b notifyNewIssue \x7d from \x27@/lib/node-red\x27;\n\nexport async function POST(req) \x7b\n    const issue = await createIssue();\n\n    // Notify Node-RED → WhatsApp (fire-and-forget)\n    notifyNewIssue(\x7b\n      id: issue.id,\n      title,\n      description,\n      area,\n      authorEmail: user.email,\n      source: \x27app\x27,\n    \x7d);\n\n    return NextResponse.json(\x7b\n      success: true,\n      message: \x27Issue submitted successfully\x27\n    \x7d);\n\x7d\n").data

/-- The content written for target file 2 by the patch routine, as a literal. -/
def final2 : List Char := ("import \x7b NextResponse \x7d from \x27next/server\x27;\nimport \x7b notifyNewIssue \x7d from \x27@/lib/node-red\x27;\n\nexport async function POST(req) \x7b\n  const issue = await makeIssue();\n\n  // Notify Node-RED → WhatsApp (fire-and-forget)\n  notifyNewIssue(\x7b\n    id: issue.id,\n    title,\n    description,\n    area,\n    authorEmail: session.user?.email || \x27\x27,\n    source: \x27website\x27,\n  \x7d);\n\n  return NextResponse.json(\x7b success: true, id: issue.id \x7d);\n\x7d\n").data

/-- The content written for target file 3 by the patch routine, as a literal. -/
def final3 : List Char := ("import \x7b NextResponse \x7d from \x27next/server\x27;\nimport \x7b notifyNewIdea \x7d from \x27@/lib/node-red\x27;\n\nexport async function POST(req) \x7b\n    const idea = await makeIdea();\n    // Auto-vote for the author\n\n    // Notify Node-RED → WhatsApp (fire-and-forget)\n    notifyNewIdea(\x7b\n      id: idea.id,\n      title: idea.title,\n      description,\n      category: \x27feature\x27,\n      authorEmail: session.user?.email || \x27\x27,\n    \x7d);\n\n    await vote(idea.id);\n    return NextResponse.json(\x7b ok: true \x7d);\n\x7d\n").data

/-- The content written for target file 4 by the patch routine, as a literal. -/
def final4 : List Char := ("import \x7b NextResponse \x7d from \x27next/server\x27;\nimport \x7b notifyIdeaPopular \x7d from \x27@/lib/node-red\x27;\n\nexport async function POST(req) \x7b\n    if (voted) \x7b\n      // Check vote threshold → WhatsApp notification\n      const VOTE_THRESHOLD = 5;\n      if (voteCount >= VOTE_THRESHOLD && (voteCount - 1) < VOTE_THRESHOLD) \x7b\n        notifyIdeaPopular(\x7b\n          id: ideaId,\n          title: idea.title,\n          voteCount,\n          threshold: VOTE_THRESHOLD,\n        \x7d);\n      \x7d\n\n      return NextResponse.json(\x7b \n        voted: true, \n        votes: voteCount \n      \x7d);\n    \x7d\n\x7d\n").data

/-- The content written for target file 5 by the patch routine, as a literal. -/
def final5 : List Char := ("import Stripe from \x27stripe\x27;\nimport \x7b notifyPayment \x7d from \x27@/lib/node-red\x27;\n\nasync function handleSubscription(subscription) \x7b\n  await db.update(\x7b\n    data: \x7b\n      cancelAtPeriodEnd: subscription.cancel_at_period_end,\n    \x7d,\n  \x7d);\n\n  // Notify Node-RED → WhatsApp\n  notifyPayment(\x7b\n    event: \x27subscription-created\x27,\n    email: session.customer_email || \x27\x27,\n    plan: await getPlanFromPriceId(subscription.items.data[0].price.id),\n    amount: subscription.items.data[0].price.unit_amount || 0,\n  \x7d);\n\x7d\n\nasync function handleFailure(invoice) \x7b\n  // Notify Node-RED → WhatsApp\n  notifyPayment(\x7b\n    event: \x27payment-failed\x27,\n    email: (invoice as any).customer_email || \x27\x27,\n    plan: team.plan || \x27unknown\x27,\n    amount: invoice.amount_due,\n    details: \x27Invoice payment failed\x27,\n  \x7d);\n\x7d\n").data

/-- The content written for target file 6 by the patch routine, as a literal. -/
def final6 : List Char := ("import \x7b NextResponse \x7d from \x27next/server\x27;\nimport \x7b notifyRelease \x7d from \x27@/lib/node-red\x27;\n\nexport async function POST(req) \x7b\n    const resolvedVersion = await save();\n\n    // Notify Node-RED → WhatsApp\n    notifyRelease(\x7b\n      version: resolvedVersion,\n      platform,\n      releaseNotes: releaseNotes || undefined,\n    \x7d);\n\n    return NextResponse.json(\x7b\n      success: true,\n      message: \x27Release uploaded successfully.\x27\n    \x7d);\n\x7d\n").data

/-- The content written for target file 7 by the patch routine, as a literal. -/
def final7 : List Char := ("import \x7b sendMail \x7d from \x27./mail\x27;\nimport \x7b notifySecurityAlert \x7d from \x27@/lib/node-red\x27;\n\nexport function alertAdmins(event) \x7b\n  sendMail(event)\n    .catch(err => console.error(\x27[Intrusion] Email send failed:\x27, err));\n\n      // Also notify via WhatsApp (fire-and-forget)\n      notifySecurityAlert(\x7b\n        severity,\n        eventType: escalatedType,\n        sourceIp: event.ip,\n        details: \x60$\x7bcount\x7d events in $\x7bWINDOW_MS / 60000\x7dmin – path: $\x7bevent.path || \x27-\x27\x7d\x60,\n      \x7d).catch(() => \x7b\x7d);\n  return;\n\x7d\n").data

/-- The vote route file after a second run of step 4: the threshold block is spliced in twice. -/
def final4TwiceLit : List Char := ("import \x7b NextResponse \x7d from \x27next/server\x27;\nimport \x7b notifyIdeaPopular \x7d from \x27@/lib/node-red\x27;\n\nexport async function POST(req) \x7b\n    if (voted) \x7b\n      // Check vote threshold → WhatsApp notification\n      const VOTE_THRESHOLD = 5;\n      if (voteCount >= VOTE_THRESHOLD && (voteCount - 1) < VOTE_THRESHOLD) \x7b\n        notifyIdeaPopular(\x7b\n          id: ideaId,\n          title: idea.title,\n          voteCount,\n          threshold: VOTE_THRESHOLD,\n        \x7d);\n      \x7d\n\n      // Check vote threshold → WhatsApp notification\n      const VOTE_THRESHOLD = 5;\n      if (voteCount >= VOTE_THRESHOLD && (voteCount - 1) < VOTE_THRESHOLD) \x7b\n        notifyIdeaPopular(\x7b\n          id: ideaId,\n          title: idea.title,\n          voteCount,\n          threshold: VOTE_THRESHOLD,\n        \x7d);\n      \x7d\n\n      return NextResponse.json(\x7b \n        voted: true, \n        votes: voteCount \n      \x7d);\n    \x7d\n\x7d\n").data

/-- `findSub` returns the index of an occurrence, and that occurrence is
the first one. -/
theorem findSub_eq_some (c p : List Char) (i : Nat) (h : findSub c p = some i) :
    p.isPrefixOf (c.drop i) = true ∧ ∀ j, j < i → p.isPrefixOf (c.drop j) = false := by
  induction c generalizing i with
  | nil =>
    rw [findSub] at h
    split at h
    · rename_i hp
      cases h
      exact ⟨hp, by intro j hj; omega⟩
    · cases h
  | cons a t ih =>
    rw [findSub] at h
    split at h
    · rename_i hp
      cases h
      exact ⟨hp, by intro j hj; omega⟩
    · rename_i hp
      rcases Option.map_eq_some'.mp h with ⟨i', hi', rfl⟩
      rcases ih i' hi' with ⟨h1, h2⟩
      refine ⟨by simpa using h1, ?_⟩
      intro j hj
      cases j with
      | zero => simpa using Bool.not_eq_true _ |>.mp hp
      | succ j' => simpa using h2 j' (by omega)

/-- When `findSub` fails there is no occurrence at any offset. -/
theorem findSub_eq_none (c p : List Char) (h : findSub c p = none) :
    ∀ j, p.isPrefixOf (c.drop j) = false := by
  induction c with
  | nil =>
    rw [findSub] at h
    split at h
    · cases h
    · rename_i hp
      intro j
      simpa using Bool.not_eq_true _ |>.mp hp
  | cons a t ih =>
    rw [findSub] at h
    split at h
    · cases h
    · rename_i hp
      have ht : findSub t p = none := Option.map_eq_none'.mp h
      intro j
      cases j with
      | zero => simpa using Bool.not_eq_true _ |>.mp hp
      | succ j' => simpa using ih ht j'

/-- An occurrence at any offset makes `findSub` succeed. -/
theorem findSub_isSome_of_occurrence (c p : List Char) (j : Nat)
    (h : p.isPrefixOf (c.drop j) = true) : (findSub c p).isSome = true := by
  cases hf : findSub c p with
  | some i => rfl
  | none => exact absurd h (by simp [findSub_eq_none c p hf j])

/-- What a successful `indexOfFrom` guarantees. -/
theorem indexOfFrom_spec (s : List Char) (c0 : Char) (i e : Nat)
    (h : indexOfFrom s c0 i = some e) :
    e < s.length ∧ i ≤ e ∧ s.getD e ' ' = c0 := by
  have h1 := List.find?_some h
  have h2 := List.mem_range.mp (List.mem_of_find?_eq_some h)
  have h3 := of_decide_eq_true h1
  exact ⟨h2, h3.1, h3.2⟩

/-- What a successful `rfindBefore` guarantees. -/
theorem rfindBefore_spec (s : List Char) (c0 : Char) (idx j : Nat)
    (h : rfindBefore s c0 idx = some j) :
    j < idx ∧ j < s.length ∧ s.getD j ' ' = c0 := by
  have hmem := List.mem_of_getLast?_eq_some h
  rcases List.mem_filter.mp hmem with ⟨hr, hp⟩
  have hj := List.mem_range.mp hr
  exact ⟨lt_of_lt_of_le hj (min_le_left _ _),
    lt_of_lt_of_le hj (min_le_right _ _), of_decide_eq_true hp⟩

/-- `rfindBefore` fails when the character does not occur before `idx`. -/
theorem rfindBefore_eq_none (s : List Char) (c0 : Char) (idx : Nat)
    (h : ∀ j, j < idx → s.getD j ' ' ≠ c0) :
    rfindBefore s c0 idx = none := by
  unfold rfindBefore
  have hnil : (List.range (min idx s.length)).filter
      (fun j => decide (s.getD j ' ' = c0)) = [] := by
    rw [List.filter_eq_nil_iff]
    intro a ha
    have : a < idx := lt_of_lt_of_le (List.mem_range.mp ha) (min_le_left _ _)
    simpa [List.getD] using h a this
  rw [hnil]
  rfl

/-- C2 (amended).  `insert_before` never raises; `insert_after` raises the
`ValueError` of `content.index` exactly when the already-applied check does
not fire, the marker is found, and no newline occurs at or after it --
i.e. when the marker's first occurrence lies on a final line that does not
end with a newline. -/
theorem insert_helpers_exception_characterisation (c m b : List Char) :
    insert_before c m b ≠ PatchResult.valueError ∧
    (insert_after c m b = PatchResult.valueError ↔
      alreadyApplied b c = false ∧
      ∃ i, findSub c m = some i ∧ indexOfFrom c '\n' i = none) := by
  constructor
  · unfold insert_before
    split
    · simp
    · cases findSub c m <;> simp
  · unfold insert_after
    split
    · rename_i hA
      simp [hA]
    · rename_i hA
      have hA' : alreadyApplied b c = false := Bool.not_eq_true _ |>.mp hA
      cases hm : findSub c m with
      | none => simp [hm]
      | some idx =>
        cases he : indexOfFrom c '\n' idx with
        | none => simp [hm, he, hA']
        | some eol => simp [hm, he]

/-- C2 counterexample: on the file content `hello`, whose only line does
not end with a newline, with marker `hello`, `insert_after` reaches
`content.index` with no newline available and raises, contradicting the
claim that the helpers never raise. -/
theorem insert_after_raises_on_final_line :
    insert_after ("hello").data ("hello").data ("x").data
      = PatchResult.valueError := by decide

/-- Witness for the amended C2 theorem at a concrete input. -/
theorem insert_helpers_exception_characterisation_witness :
    insert_after ("world").data ("world").data ("y").data
      = PatchResult.valueError :=
  (insert_helpers_exception_characterisation ("world").data ("world").data
    ("y").data).2.mpr ⟨by decide, 0, by decide, by decide⟩

/-- C3.  When the marker (resp. the old text) does not occur and the
already-applied check does not fire, each helper takes its warning branch
and the file content is left byte-for-byte unchanged. -/
theorem absent_marker_leaves_file_unchanged (c m b old new : List Char)
    (hA : alreadyApplied b c = false) (hm : findSub c m = none)
    (hA2 : alreadyApplied new c = false) (hold : findSub c old = none) :
    insert_after c m b = PatchResult.notFound ∧
    insert_before c m b = PatchResult.notFound ∧
    replace_text c old new = PatchResult.notFound ∧
    runPatch (insert_after c m b) c = c ∧
    runPatch (insert_before c m b) c = c ∧
    runPatch (replace_text c old new) c = c := by
  have h1 : insert_after c m b = PatchResult.notFound := by
    unfold insert_after
    simp [hA, hm]
  have h2 : insert_before c m b = PatchResult.notFound := by
    unfold insert_before
    simp [hA, hm]
  have h3 : replace_text c old new = PatchResult.notFound := by
    unfold replace_text
    simp [hold, hA2]
  exact ⟨h1, h2, h3, by rw [h1]; rfl, by rw [h2]; rfl, by rw [h3]; rfl⟩

/-- Witness for C3 at a concrete input. -/
theorem absent_marker_leaves_file_unchanged_witness :
    insert_after ("abc").data ("zzz").data ("x").data = PatchResult.notFound ∧
    insert_before ("abc").data ("zzz").data ("x").data = PatchResult.notFound ∧
    replace_text ("abc").data ("qqq").data ("y").data = PatchResult.notFound ∧
    runPatch (insert_after ("abc").data ("zzz").data ("x").data) ("abc").data
      = ("abc").data ∧
    runPatch (insert_before ("abc").data ("zzz").data ("x").data) ("abc").data
      = ("abc").data ∧
    runPatch (replace_text ("abc").data ("qqq").data ("y").data) ("abc").data
      = ("abc").data :=
  absent_marker_leaves_file_unchanged ("abc").data ("zzz").data ("x").data
    ("qqq").data ("y").data (by decide) (by decide) (by decide) (by decide)

/-- C6.  Whenever `insert_after` or `insert_before` writes a patched
content, that content is the original split at one offset with the code
block spliced in: the prefix and suffix around the insertion point are
byte-for-byte the original's. -/
theorem insert_helpers_frame (c m b r : List Char) :
    (insert_after c m b = PatchResult.patched r →
      ∃ n, n ≤ c.length ∧ r = c.take n ++ b ++ c.drop n) ∧
    (insert_before c m b = PatchResult.patched r →
      ∃ n, n ≤ c.length ∧ r = c.take n ++ b ++ c.drop n) := by
  constructor
  · intro h
    unfold insert_after at h
    split at h
    · cases h
    · cases hm : findSub c m with
      | none => simp only [hm] at h; cases h
      | some idx =>
        simp only [hm] at h
        cases he : indexOfFrom c '\n' idx with
        | none => simp only [he] at h; cases h
        | some eol =>
          simp only [he] at h
          exact ⟨eol + 1, (indexOfFrom_spec c '\n' idx eol he).1,
            (PatchResult.patched.inj h).symm⟩
  · intro h
    unfold insert_before at h
    split at h
    · cases h
    · cases hm : findSub c m with
      | none => simp only [hm] at h; cases h
      | some idx =>
        simp only [hm] at h
        cases hr : rfindBefore c '\n' idx with
        | none =>
          simp only [hr] at h
          exact ⟨0, Nat.zero_le _, (PatchResult.patched.inj h).symm⟩
        | some j =>
          simp only [hr] at h
          exact ⟨j + 1, (rfindBefore_spec c '\n' idx j hr).2.1,
            (PatchResult.patched.inj h).symm⟩

/-- Witness for C6 at a concrete input. -/
theorem insert_helpers_frame_witness :
    ∃ n, n ≤ ("ab\ncd").data.length ∧
      ("ab\nX\ncd").data
        = ("ab\ncd").data.take n ++ ("X\n").data ++ ("ab\ncd").data.drop n :=
  (insert_helpers_frame ("ab\ncd").data ("cd").data ("X\n").data
    ("ab\nX\ncd").data).2 (by decide)

/-- C9.  When the marker's first occurrence lies in the first line of the
file (no newline precedes it), `rfind` returns `-1`, `start_of_line`
becomes `0`, and `insert_before` splices the block before the whole file
content. -/
theorem insert_before_first_line (c m b : List Char) (idx : Nat)
    (hA : alreadyApplied b c = false) (hm : findSub c m = some idx)
    (hfl : ∀ j, j < idx → c.getD j ' ' ≠ '\n') :
    insert_before c m b = PatchResult.patched (b ++ c) := by
  have hr : rfindBefore c '\n' idx = none := rfindBefore_eq_none c '\n' idx hfl
  unfold insert_before
  simp [hA, hm, hr]

/-- C5.  `replace_text` splices the replacement over the first occurrence
of the old text (there is an occurrence at the returned index and none
before it); when the old text is absent it no-ops, reporting
already-applied when the replacement's first check line is present and
not-found otherwise. -/
theorem replace_text_spec (c old new : List Char) :
    (∀ i, findSub c old = some i →
      replace_text c old new
          = PatchResult.patched (c.take i ++ new ++ c.drop (i + old.length)) ∧
        old.isPrefixOf (c.drop i) = true ∧
        ∀ j, j < i → old.isPrefixOf (c.drop j) = false) ∧
    (findSub c old = none → alreadyApplied new c = true →
      replace_text c old new = PatchResult.alreadyApplied ∧
      runPatch (replace_text c old new) c = c) ∧
    (findSub c old = none → alreadyApplied new c = false →
      replace_text c old new = PatchResult.notFound ∧
      runPatch (replace_text c old new) c = c) := by
  refine ⟨?_, ?_, ?_⟩
  · intro i hi
    refine ⟨?_, (findSub_eq_some c old i hi).1, (findSub_eq_some c old i hi).2⟩
    unfold replace_text
    simp [hi]
  · intro h1 h2
    have hr : replace_text c old new = PatchResult.alreadyApplied := by
      unfold replace_text
      simp [h1, h2]
    exact ⟨hr, by rw [hr]; rfl⟩
  · intro h1 h2
    have hr : replace_text c old new = PatchResult.notFound := by
      unfold replace_text
      simp [h1, h2]
    exact ⟨hr, by rw [hr]; rfl⟩

/-- Witness for C5 at a concrete input: in `abcbc` the first `bc` (index
1, not index 3) is replaced. -/
theorem replace_text_spec_witness :
    replace_text ("abcbc").data ("bc").data ("XY").data
        = PatchResult.patched (("abcbc").data.take 1 ++ ("XY").data
            ++ ("abcbc").data.drop (1 + ("bc").data.length)) ∧
      ("bc").data.isPrefixOf (("abcbc").data.drop 1) = true ∧
      ∀ j, j < 1 → ("bc").data.isPrefixOf (("abcbc").data.drop j) = false :=
  (replace_text_spec ("abcbc").data ("bc").data ("XY").data).1 1 (by decide)

/-- `insertIdx` at an index within the list splits it there. -/
theorem insertIdx_split {α : Type} (n : Nat) (a : α) (l : List α)
    (h : n ≤ l.length) : l.insertIdx n a = l.take n ++ a :: l.drop n := by
  induction l generalizing n with
  | nil =>
    cases n with
    | zero => rfl
    | succ n => simp at h
  | cons b t ih =>
    cases n with
    | zero => simp
    | succ n => simp [List.insertIdx_succ_cons, ih n (by simpa using h)]

/-- `intercalate` over a cons with a nonempty tail. -/
theorem intercalate_cons_ne_nil {α : Type} (s a : List α)
    (ls : List (List α)) (h : ls ≠ []) :
    List.intercalate s (a :: ls) = a ++ s ++ List.intercalate s ls := by
  cases ls with
  | nil => exact absurd rfl h
  | cons b t => simp [List.intercalate]

/-- `last_import_idx` is an index into the line list. -/
theorem lastImportIdx_lt_length (ls : List (List Char)) (k : Nat)
    (h : lastImportIdx ls = some k) : k < ls.length := by
  induction ls generalizing k with
  | nil => cases h
  | cons l t ih =>
    rw [lastImportIdx] at h
    cases ht : lastImportIdx t with
    | some i =>
      simp only [ht] at h
      cases h
      have := ih i ht
      simp only [List.length_cons]
      omega
    | none =>
      simp only [ht] at h
      split at h
      · cases h
        simp
      · cases h

/-- Splitting on newlines never yields the empty list of lines. -/
theorem splitOn_newline_ne_nil (c : List Char) : c.splitOn '\n' ≠ [] :=
  List.splitOnP_ne_nil _ c

/-- C4.  `insert_import` leaves the file unchanged when the import line is
already present; when no line starts with `import `, it puts the line at
the very top of the file; when the last import line has index `k`, it
inserts the line immediately after it; and on the spec's example file the
result is exactly as stated. -/
theorem insert_import_spec :
    (∀ c line, pyIn line c = true → insert_import c line = c) ∧
    (∀ c line, pyIn line c = false →
      lastImportIdx (c.splitOn '\n') = none →
      insert_import c line = line ++ '\n' :: c) ∧
    (∀ c line k, pyIn line c = false →
      lastImportIdx (c.splitOn '\n') = some k →
      insert_import c line
        = List.intercalate ['\n']
            ((c.splitOn '\n').take (k + 1)
              ++ line :: (c.splitOn '\n').drop (k + 1))) ∧
    insert_import ("import \x7b x \x7d from \x27y\x27;\nfoo();").data
        ("import \x7b z \x7d from \x27w\x27;").data
      = ("import \x7b x \x7d from \x27y\x27;\nimport \x7b z \x7d from \x27w\x27;\nfoo();").data := by
  refine ⟨?_, ?_, ?_, by decide⟩
  · intro c line h
    unfold insert_import
    simp [h]
  · intro c line h h2
    unfold insert_import
    simp only [h, Bool.false_eq_true, if_false, h2]
    rw [List.insertIdx_zero,
      intercalate_cons_ne_nil _ _ _ (splitOn_newline_ne_nil c),
      List.intercalate_splitOn c '\n']
    simp
  · intro c line k h h2
    unfold insert_import
    simp only [h, Bool.false_eq_true, if_false, h2]
    rw [insertIdx_split _ _ _ (lastImportIdx_lt_length _ _ h2)]

/-- Witness for C4 at a concrete input. -/
theorem insert_import_spec_witness :
    insert_import ("foo();\nbar();").data ("import \x7b q \x7d from \x27r\x27;").data
      = ("import \x7b q \x7d from \x27r\x27;").data ++ '\n' :: ("foo();\nbar();").data :=
  insert_import_spec.2.1 ("foo();\nbar();").data
    ("import \x7b q \x7d from \x27r\x27;").data (by decide) (by decide)

/-- Witness for C9 at a concrete input. -/
theorem insert_before_first_line_witness :
    insert_before ("cd\nef").data ("cd").data ("X\n").data
      = PatchResult.patched (("X\n").data ++ ("cd\nef").data) :=
  insert_before_first_line ("cd\nef").data ("cd").data ("X\n").data 0
    (by decide) (by decide) (by intro j hj; omega)

/-- An empty `check_lines` makes the already-applied test vacuously false. -/
theorem alreadyApplied_of_checkLines_nil (b c : List Char)
    (h : checkLines b = []) : alreadyApplied b c = false := by
  unfold alreadyApplied
  rw [h]

/-- A prefix found inside a left factor survives appending on the right. -/
theorem isPrefixOf_drop_append (p A rest : List Char) (k : Nat)
    (h : p.isPrefixOf (A.drop k) = true) (hk : k ≤ A.length) :
    p.isPrefixOf ((A ++ rest).drop k) = true := by
  rw [List.drop_append_of_le_length hk]
  rw [ List.isPrefixOf_iff_prefix] at h ⊢
  exact h.trans (List.prefix_append _ _)

/-- A prefix of a drop survives truncating the list after its end. -/
theorem isPrefixOf_drop_take (p c : List Char) (k n : Nat)
    (h : p.isPrefixOf (c.drop k) = true) (hn : k + p.length ≤ n) :
    p.isPrefixOf ((c.take n).drop k) = true := by
  rw [List.drop_take]
  rw [ List.isPrefixOf_iff_prefix] at h ⊢
  rw [List.prefix_iff_eq_take] at h ⊢
  rw [List.take_take]
  rwa [Nat.min_eq_left (by omega)]

/-- An occurrence inside the right factor of a three-way append is still
an occurrence, shifted past the first two factors. -/
theorem isPrefixOf_drop_middle (p A b B : List Char) (k : Nat)
    (h : p.isPrefixOf (B.drop k) = true) :
    p.isPrefixOf ((A ++ b ++ B).drop (A.length + b.length + k)) = true := by
  have hd : (A ++ b ++ B).drop (A.length + b.length + k) = B.drop k := by
    rw [show A.length + b.length + k = (A ++ b).length + k by simp]
    rw [← List.drop_drop, List.drop_left]
  rwa [hd]

/-- Length of a splice at an offset within the content. -/
theorem length_splice (c b : List Char) (n : Nat) (hn : n ≤ c.length) :
    (c.take n ++ b ++ c.drop n).length = c.length + b.length := by
  simp only [List.length_append, List.length_take, List.length_drop]
  omega

/-- `indexOfFrom` succeeds as soon as some admissible position carries the
character. -/
theorem indexOfFrom_isSome (s : List Char) (c0 : Char) (i k : Nat)
    (hik : i ≤ k) (hk : k < s.length) (hc : s.getD k ' ' = c0) :
    (indexOfFrom s c0 i).isSome = true := by
  unfold indexOfFrom
  cases hf : (List.range s.length).find?
      (fun j => decide (i ≤ j ∧ s.getD j ' ' = c0)) with
  | some v => rfl
  | none =>
    exfalso
    have := List.find?_eq_none.mp hf k (List.mem_range.mpr hk)
    rw [List.getD_eq_getElem?_getD] at hc
    simp [hik, hc] at this

/-- The marker always survives an `insert_before` splice: the insertion
point is the start of the marker's line, which is at or before the
marker. -/
theorem insert_before_marker_survives (c m b : List Char) (idx sol : Nat)
    (hm : findSub c m = some idx) (hsol : sol ≤ idx) (hlen : sol ≤ c.length) :
    (c.take sol ++ b ++ c.drop sol).length = c.length + b.length ∧
    pyIn m (c.take sol ++ b ++ c.drop sol) = true := by
  refine ⟨length_splice c b sol hlen, ?_⟩
  have hpref : m.isPrefixOf (c.drop idx) = true := (findSub_eq_some c m idx hm).1
  have hdd : (c.drop sol).drop (idx - sol) = c.drop idx := by
    rw [List.drop_drop]
    congr 1
    omega
  have hB : m.isPrefixOf ((c.drop sol).drop (idx - sol)) = true := by
    rwa [hdd]
  have := isPrefixOf_drop_middle m (c.take sol) b (c.drop sol) (idx - sol) hB
  exact findSub_isSome_of_occurrence _ m _ this

/-- C10 counterexample: with the comment-only block `//c` and the
two-line marker `a\nb`, the first `insert_after` splices inside the
marker's occurrence and destroys it, so the second run no-ops instead of
inserting again: repeated calls do not grow the file on each run. -/
theorem comment_only_block_second_run_noop :
    checkLines ("//c\n").data = [] ∧
    insert_after ("a\nb").data ("a\nb").data ("//c\n").data
      = PatchResult.patched ("a\n//c\nb").data ∧
    insert_after ("a\n//c\nb").data ("a\nb").data ("//c\n").data
      = PatchResult.notFound ∧
    runPatch (insert_after ("a\n//c\nb").data ("a\nb").data ("//c\n").data)
        ("a\n//c\nb").data = ("a\n//c\nb").data := by decide

/-- C10 (amended).  When the code block has no non-blank non-comment
line, the already-applied check is vacuous, so the block is inserted on
every invocation whose marker search succeeds, growing the file by the
block's length each time.  For `insert_before` the marker always survives
the splice, so every later run inserts again; for `insert_after` the same
holds when the marker contains no newline (a marker spanning the spliced
line boundary can be destroyed, after which later runs no-op). -/
theorem comment_only_block_not_idempotent (c m b : List Char)
    (hb : checkLines b = []) :
    alreadyApplied b c = false ∧
    (∀ idx, findSub c m = some idx →
      ∃ r, insert_before c m b = PatchResult.patched r ∧
        r.length = c.length + b.length ∧ pyIn m r = true) ∧
    (∀ idx eol, findSub c m = some idx → indexOfFrom c '\n' idx = some eol →
      ∃ r, insert_after c m b = PatchResult.patched r ∧
        r.length = c.length + b.length ∧
        ((∀ k, k < m.length → m.getD k ' ' ≠ '\n') →
          pyIn m r = true ∧
          ∀ j, findSub r m = some j → (indexOfFrom r '\n' j).isSome = true)) := by
  have hA : alreadyApplied b c = false := alreadyApplied_of_checkLines_nil b c hb
  refine ⟨hA, ?_, ?_⟩
  · intro idx hm
    cases hr : rfindBefore c '\n' idx with
    | none =>
      refine ⟨b ++ c, ?_, ?_⟩
      · unfold insert_before
        simp [hA, hm, hr]
      · have h0 := insert_before_marker_survives c m b idx 0 hm
          (Nat.zero_le _) (Nat.zero_le _)
        simpa using h0
    | some j =>
      rcases rfindBefore_spec c '\n' idx j hr with ⟨hj1, hj2, _⟩
      refine ⟨c.take (j + 1) ++ b ++ c.drop (j + 1), ?_, ?_⟩
      · unfold insert_before
        simp [hA, hm, hr]
      · exact insert_before_marker_survives c m b idx (j + 1) hm hj1 hj2
  · intro idx eol hm he
    rcases indexOfFrom_spec c '\n' idx eol he with ⟨heL, heI, heC⟩
    have hpref : m.isPrefixOf (c.drop idx) = true := (findSub_eq_some c m idx hm).1
    refine ⟨c.take (eol + 1) ++ b ++ c.drop (eol + 1), ?_, ?_, ?_⟩
    · unfold insert_after
      simp [hA, hm, he]
    · exact length_splice c b (eol + 1) (by omega)
    · intro hnl
      -- the marker contains no newline, so it ends before the spliced eol
      have hidx : idx ≤ eol := heI
      have hend : idx + m.length ≤ eol + 1 := by
        by_contra hgt
        push_neg at hgt
        have hk : eol - idx < m.length := by omega
        rcases ( List.isPrefixOf_iff_prefix.mp hpref) with ⟨t, ht⟩
        have hEolDrop : (c.drop idx).getD (eol - idx) ' ' = '\n' := by
          simp only [List.getD_eq_getElem?_getD, List.getElem?_drop]
          rw [show idx + (eol - idx) = eol by omega]
          simpa [List.getD_eq_getElem?_getD] using heC
        have hMChar : m.getD (eol - idx) ' ' = '\n' := by
          rw [← ht] at hEolDrop
          rwa [List.getD_eq_getElem?_getD, List.getElem?_append_left hk,
            ← List.getD_eq_getElem?_getD] at hEolDrop
        exact hnl (eol - idx) hk hMChar
      have hinA : m.isPrefixOf ((c.take (eol + 1)).drop idx) = true :=
        isPrefixOf_drop_take m c idx (eol + 1) hpref hend
      have hlenA : idx ≤ (c.take (eol + 1)).length := by
        simp only [List.length_take]
        omega
      have hinR : m.isPrefixOf
          ((c.take (eol + 1) ++ (b ++ c.drop (eol + 1))).drop idx) = true :=
        isPrefixOf_drop_append m (c.take (eol + 1)) (b ++ c.drop (eol + 1))
          idx hinA hlenA
      have hinR' : m.isPrefixOf
          ((c.take (eol + 1) ++ b ++ c.drop (eol + 1)).drop idx) = true := by
        rwa [List.append_assoc]
      refine ⟨findSub_isSome_of_occurrence _ m idx hinR', ?_⟩
      intro j hj
      have hmin := (findSub_eq_some _ m j hj).2
      have hjle : j ≤ idx := by
        by_contra hlt
        push_neg at hlt
        have hc2 := hmin idx hlt
        rw [hc2] at hinR'
        cases hinR'
      have hEolR : (c.take (eol + 1) ++ b ++ c.drop (eol + 1)).getD eol ' '
          = '\n' := by
        have h1 : eol < (c.take (eol + 1)).length := by
          simp only [List.length_take]
          omega
        have h2 : eol < (c.take (eol + 1) ++ b).length := by
          simp only [List.length_append]
          omega
        rw [List.getD_eq_getElem?_getD, List.getElem?_append_left h2,
          List.getElem?_append_left h1, List.getElem?_take_of_lt (by omega),
          ← List.getD_eq_getElem?_getD]
        exact heC
      have hEolLt : eol < (c.take (eol + 1) ++ b ++ c.drop (eol + 1)).length := by
        rw [length_splice c b (eol + 1) (by omega)]
        omega
      exact indexOfFrom_isSome _ '\n' j eol (by omega) hEolLt hEolR

/-- Witness for the amended C10 theorem at a concrete input. -/
theorem comment_only_block_not_idempotent_witness :
    alreadyApplied ("// note\n").data ("xy\nz").data = false ∧
    ∃ r, insert_before ("xy\nz").data ("y").data ("// note\n").data
        = PatchResult.patched r ∧
      r.length = ("xy\nz").data.length + ("// note\n").data.length ∧
      pyIn ("y").data r = true :=
  ⟨(comment_only_block_not_idempotent ("xy\nz").data ("y").data
      ("// note\n").data (by decide)).1,
    (comment_only_block_not_idempotent ("xy\nz").data ("y").data
      ("// note\n").data (by decide)).2.1 1 (by decide)⟩

set_option maxRecDepth 8000 in
set_option maxHeartbeats 4000000 in
/-- C1.  The patch routine is not idempotent: step 4's replacement text
ends with its old text, so on a second run `replace_text` finds the old
text again (inside the text inserted by the first run) and splices the
vote-threshold block in once more, changing the vote route file again. -/
theorem vote_threshold_step_not_idempotent :
    patchFile4 (patchFile4 file4Model) ≠ patchFile4 file4Model := by
  have h1 : patchFile4 file4Model = final4 := by decide
  have h2 : patchFile4 final4 = final4TwiceLit := by decide
  rw [h1, h2]
  decide

set_option maxRecDepth 8000 in
set_option maxHeartbeats 4000000 in
/-- C7 counterexample (target files modelled from the spec): after the
stripe-webhook step, the first non-comment line of its second inserted
block occurs twice in the patched file, not exactly once, because both
inserted blocks call the same notification function. -/
theorem stripe_checkline_occurs_twice :
    countOcc ((checkLines new5b).headD []) (patchFile5 file5Model) = 2 := by
  have h1 : patchFile5 file5Model = final5 := by decide
  have h2 : (checkLines new5b).headD [] = ("notifyPayment(\x7b").data := by
    decide
  rw [h1, h2]
  decide

set_option maxRecDepth 8000 in
set_option maxHeartbeats 4000000 in
/-- C7 (amended, target files modelled from the spec).  After the patch
routine, each target file contains exactly one occurrence of its import
line and exactly one occurrence of each inserted block's first
non-comment line, with one exception: in the stripe webhook file the
second block's first non-comment line occurs twice, once per inserted
block. -/
theorem patched_files_occurrence_counts :
    (countOcc imp1 (patchFile1 file1Model) = 1 ∧
      countOcc ((checkLines block1).headD []) (patchFile1 file1Model) = 1) ∧
    (countOcc imp2 (patchFile2 file2Model) = 1 ∧
      countOcc ((checkLines block2).headD []) (patchFile2 file2Model) = 1) ∧
    (countOcc imp3 (patchFile3 file3Model) = 1 ∧
      countOcc ((checkLines block3).headD []) (patchFile3 file3Model) = 1) ∧
    (countOcc imp4 (patchFile4 file4Model) = 1 ∧
      countOcc ((checkLines new4).headD []) (patchFile4 file4Model) = 1) ∧
    (countOcc imp5 (patchFile5 file5Model) = 1 ∧
      countOcc ((checkLines new5a).headD []) (patchFile5 file5Model) = 1 ∧
      countOcc ((checkLines new5b).headD []) (patchFile5 file5Model) = 2) ∧
    (countOcc imp6 (patchFile6 file6Model) = 1 ∧
      countOcc ((checkLines block6).headD []) (patchFile6 file6Model) = 1) ∧
    (countOcc imp7 (patchFile7 file7Model) = 1 ∧
      countOcc ((checkLines block7).headD []) (patchFile7 file7Model) = 1) := by
  have e1 : patchFile1 file1Model = final1 := by decide
  have e2 : patchFile2 file2Model = final2 := by decide
  have e3 : patchFile3 file3Model = final3 := by decide
  have e4 : patchFile4 file4Model = final4 := by decide
  have e5 : patchFile5 file5Model = final5 := by decide
  have e6 : patchFile6 file6Model = final6 := by decide
  have e7 : patchFile7 file7Model = final7 := by decide
  have c1 : (checkLines block1).headD [] = ("notifyNewIssue(\x7b").data := by
    decide
  have c2 : (checkLines block2).headD [] = ("notifyNewIssue(\x7b").data := by
    decide
  have c3 : (checkLines block3).headD [] = ("notifyNewIdea(\x7b").data := by
    decide
  have c4 : (checkLines new4).headD []
      = ("const VOTE_THRESHOLD = 5;").data := by decide
  have c5a : (checkLines new5a).headD []
      = ("cancelAtPeriodEnd: subscription.cancel_at_period_end,").data := by
    decide
  have c5b : (checkLines new5b).headD [] = ("notifyPayment(\x7b").data := by
    decide
  have c6 : (checkLines block6).headD [] = ("notifyRelease(\x7b").data := by
    decide
  have c7 : (checkLines block7).headD []
      = ("notifySecurityAlert(\x7b").data := by decide
  rw [e1, e2, e3, e4, e5, e6, e7, c1, c2, c3, c4, c5a, c5b, c6, c7]
  decide

/-- C8 (amended).  The exit code is always 0 or 1; a failed prerequisite
check exits 1; and the script exits 0 exactly when the prerequisites pass
and no patch step raises an uncaught exception. -/
theorem exit_code_characterisation (p : Prereqs) (fs : Files) :
    (mainExit p fs = 0 ∨ mainExit p fs = 1) ∧
    (check_prereqs p = false → mainExit p fs = 1) ∧
    (mainExit p fs = 0 ↔
      check_prereqs p = true ∧ (mainFiles fs).isOk = true) := by
  unfold mainExit
  cases hp : check_prereqs p with
  | false => simp
  | true =>
    cases hf : mainFiles fs with
    | ok v => simp [Except.isOk, Except.toBool, hf]
    | error e => simp [Except.isOk, Except.toBool, hf]

set_option maxRecDepth 8000 in
set_option maxHeartbeats 4000000 in
/-- Witness for the amended C8 theorem at concrete inputs: a failed check
exits 1; a full run on the modelled target files exits 0. -/
theorem exit_code_characterisation_witness :
    mainExit ⟨false, true, true⟩ emptyFiles = 1 ∧
    mainExit ⟨true, true, true⟩ modelFiles = 0 :=
  ⟨(exit_code_characterisation ⟨false, true, true⟩ emptyFiles).2.1 (by decide),
    (exit_code_characterisation ⟨true, true, true⟩ modelFiles).2.2.mpr
      ⟨by decide, by decide⟩⟩

set_option maxRecDepth 8000 in
set_option maxHeartbeats 4000000 in
/-- C8 counterexample: with every prerequisite check passing, a target
ideas file whose marker sits on a final line without a newline makes step
3 raise `ValueError`; the uncaught exception terminates Python with exit
code 1, refuting exit code 0 whenever the prerequisite checks pass. -/
theorem exit_one_despite_prereqs_ok :
    check_prereqs ⟨true, true, true⟩ = true ∧
    mainExit ⟨true, true, true⟩ badIdeasFiles = 1 := by decide

end WireNotifications
